import Mathlib

/-
Shallow embedding of the store availability and purchase-transaction logic of
the ritual_night_api repository (`app/models.py`, `app/routes/store.py`,
`app/routes/store_management.py`, `app/routes/user_item_mangement.py`).

Tables are lists of rows in insertion order; `Query.first()` is `List.find?`;
in-place ORM mutation of a fetched row is an update of the first matching list
entry.  Python exceptions that the route bodies catch with their blanket
`except Exception` handler (returning the generic 500 response) are embedded
as the `Result.internalError` outcome with the state unchanged, since the
session is closed without commit.  `DateTime` values are embedded as integers
(only their ordering is used by the code).
-/

namespace RitualNight

/-- Row of the `users` table (`app/models.py`, class `User`). -/
structure User where
  user_id : Int
  username : String
  email : String
  password_hash : String
  gold_amount : Int
  silver_amount : Int
deriving DecidableEq

/-- Row of the `items` table (`app/models.py`, class `Item`).
`silver_cost` and `gold_cost` are nullable columns. -/
structure Item where
  item_id : Int
  item_name : String
  item_type_id : Int
  silver_cost : Option Int
  gold_cost : Option Int
  rarity_id : Int
  unity_name : String
  is_general_store_item : Bool
deriving DecidableEq

/-- Row of the `user_items` table (`app/models.py`, class `UserItem`).
There is no `is_obtained` column, a fact some route code ignores. -/
structure UserItem where
  user_item_id : Int
  user_id : Int
  item_id : Int
  item_level : Int
  item_xp : Int
  is_equipped : Bool
  prestige_level : Int
  selected_chroma_id : Option Int
  selected_shader_id : Option Int
  favorite : Bool
deriving DecidableEq

/-- Row of the `premium_store_sets` table. -/
structure PremiumStoreSet where
  set_id : Int
  set_name : String
deriving DecidableEq

/-- Row of the `set_item_association` table. -/
structure SetItemAssociation where
  association_id : Int
  set_id : Int
  item_id : Int
deriving DecidableEq

/-- Row of the `premium_store_schedules` table. -/
structure PremiumStoreSchedule where
  schedule_id : Int
  set_id : Int
  start_date : Int
  end_date : Int
deriving DecidableEq

/-- The database state visible to the store and inventory routes. -/
structure DB where
  users : List User
  items : List Item
  user_items : List UserItem
  premium_store_sets : List PremiumStoreSet
  set_item_association : List SetItemAssociation
  premium_store_schedules : List PremiumStoreSchedule
deriving DecidableEq

/-- Outcome of a route body, one constructor per distinct response the route
code can produce.  `internalError` is the blanket 500 handler that catches
any raised exception. -/
inductive Result where
  | success
  | missingFields
  | userOrItemNotFound
  | userNotFound
  | itemNotFound
  | alreadyOwned
  | insufficientFunds
  | notAvailable
  | internalError
deriving DecidableEq

/-- `UserItem(user_id=..., item_id=..., is_equipped=...)`: the explicitly
passed constructor fields together with the column defaults declared in
`app/models.py` (`item_level=1`, `item_xp=0`, `prestige_level=0`,
`favorite=False`, NULL `selected_chroma_id` / `selected_shader_id`). -/
def newUserItem (pk uid iid : Int) (equipped : Bool) : UserItem :=
  { user_item_id := pk
    user_id := uid
    item_id := iid
    item_level := 1
    item_xp := 0
    is_equipped := equipped
    prestige_level := 0
    selected_chroma_id := none
    selected_shader_id := none
    favorite := false }

/-- Fresh primary key for an inserted `user_items` row (autoincrement). -/
def nextUserItemId (db : DB) : Int :=
  (db.user_items.map (fun ui => ui.user_item_id)).foldr max 0 + 1

/-- `user.silver_amount -= item.silver_cost`: in-place mutation of the single
fetched `users` row, i.e. of the first row matching the user id. -/
def debitSilverFirst : List User → Int → Int → List User
  | [], _, _ => []
  | u :: rest, uid, amt =>
    if u.user_id == uid then { u with silver_amount := u.silver_amount - amt } :: rest
    else u :: debitSilverFirst rest uid amt

/-- `user.gold_amount -= item.gold_cost`, analogously. -/
def debitGoldFirst : List User → Int → Int → List User
  | [], _, _ => []
  | u :: rest, uid, amt =>
    if u.user_id == uid then { u with gold_amount := u.gold_amount - amt } :: rest
    else u :: debitGoldFirst rest uid amt

/-- `buy_general_item` of `app/routes/store_management.py`.  The `item_id`
query-string argument is `none` when absent, in which case `int(None)` raises
before the presence check runs. -/
def buy_general_item (db : DB) (user_id : Int) (item_id_arg : Option Int) :
    Result × DB :=
  match item_id_arg with
  | none => (.internalError, db)
  | some item_id =>
    if item_id == 0 || user_id == 0 then (.missingFields, db)
    else
      match db.users.find? (fun u => u.user_id == user_id),
            db.items.find? (fun it => it.item_id == item_id && it.is_general_store_item) with
      | some user, some item =>
        match db.user_items.find? (fun ui => ui.user_id == user_id && ui.item_id == item_id) with
        | some _ =>
          -- `user_item.is_obtained`: `UserItem` has no `is_obtained` column,
          -- so the attribute access raises and the blanket handler answers
          (.internalError, db)
        | none =>
          match item.silver_cost with
          | none =>
            -- `user.silver_amount < None` raises `TypeError`
            (.internalError, db)
          | some cost =>
            if user.silver_amount < cost then (.insufficientFunds, db)
            else
              (.success,
                { db with
                    users := debitSilverFirst db.users user_id cost
                    user_items :=
                      db.user_items ++ [newUserItem (nextUserItemId db) user_id item_id false] })
      | _, _ => (.userOrItemNotFound, db)

/-- `buy_general_item` of `app/routes/store.py`, the older duplicate of the
same endpoint. -/
def store_buy_general_item (db : DB) (user_id : Int) (item_id_arg : Option Int) :
    Result × DB :=
  match item_id_arg with
  | none => (.internalError, db)
  | some item_id =>
    if item_id == 0 || user_id == 0 then (.missingFields, db)
    else
      match db.users.find? (fun u => u.user_id == user_id),
            db.items.find? (fun it => it.item_id == item_id && it.is_general_store_item) with
      | some _, some _ =>
        match db.user_items.find? (fun ui => ui.user_id == user_id && ui.item_id == item_id) with
        | some _ =>
          -- `user_item.is_obtained` raises, as above
          (.internalError, db)
        | none =>
          -- `user.silver < item.silver_cost`: `User` has no `silver` column
          -- (the model names it `silver_amount`), so the attribute access
          -- raises before anything is mutated
          (.internalError, db)
      | _, _ => (.userOrItemNotFound, db)

/-- The inputs on which `buy_general_item` of `store_management.py` gets past
its ownership check and reaches the silver funds check. -/
def reachesFundsCheck (db : DB) (user_id : Int) (item_id_arg : Option Int) : Bool :=
  match item_id_arg with
  | none => false
  | some item_id =>
    !(item_id == 0 || user_id == 0) &&
    (db.users.find? (fun u => u.user_id == user_id)).isSome &&
    (db.items.find? (fun it => it.item_id == item_id && it.is_general_store_item)).isSome &&
    (db.user_items.find? (fun ui => ui.user_id == user_id && ui.item_id == item_id)).isNone

/-- `buy_premium_item` of `app/routes/store_management.py`.  After the
presence check the code runs
`session.query(Item).filter_by(item_id=..., is_premium_store_item=True)`,
but `Item` has no `is_premium_store_item` column, so building that query
raises and the blanket handler answers on every such call; the schedule,
ownership and gold checks further down are unreachable. -/
def buy_premium_item (db : DB) (user_id : Int) (item_id_arg : Option Int)
    (now : Int) : Result × DB :=
  match item_id_arg with
  | none => (.internalError, db)
  | some item_id =>
    if item_id == 0 || user_id == 0 then (.missingFields, db)
    else (.internalError, db)

/-- One schedule row covering an instant:
`start_date <= current_time` and `end_date >= current_time`. -/
def scheduleCovers (sch : PremiumStoreSchedule) (now : Int) : Bool :=
  decide (sch.start_date ≤ now) && decide (sch.end_date ≥ now)

/-- The premium sets whose schedule covers `now`
(`get_current_premium_items` of `store_management.py`, the join of
`premium_store_sets` with `premium_store_schedules` filtered on the window). -/
def currentSets (db : DB) (now : Int) : List PremiumStoreSet :=
  db.premium_store_sets.filter (fun s =>
    db.premium_store_schedules.any (fun sch => sch.set_id == s.set_id && scheduleCovers sch now))

/-- `[item.item_id for item in set.items]`: the item ids associated to a set. -/
def setItemIds (db : DB) (s : PremiumStoreSet) : List Int :=
  (db.set_item_association.filter (fun a => a.set_id == s.set_id)).map (fun a => a.item_id)

/-- `[item.item_id for set in current_sets for item in set.items]`. -/
def currentPremiumItemIds (db : DB) (now : Int) : List Int :=
  (currentSets db now).flatMap (fun s => setItemIds db s)

/-- `get_current_premium_items` of `store_management.py`: the
`(item_id, item_name, gold_cost)` projection of the items whose id occurs in
the currently scheduled sets. -/
def get_current_premium_items (db : DB) (now : Int) : List (Int × String × Option Int) :=
  (db.items.filter (fun it => (currentPremiumItemIds db now).contains it.item_id)).map
    (fun it => (it.item_id, it.item_name, it.gold_cost))

/-- An item is live at `now` when it is offered by the premium store at that
instant, i.e. belongs to some set with a covering schedule. -/
def isLive (db : DB) (item_id now : Int) : Bool :=
  (currentPremiumItemIds db now).contains item_id

/-- `user_item.item.item_type` through the relationships: the item type of an
item id.  Within one ORM session two `ItemType` objects are equal exactly when
their ids are (identity map), so types are compared by id. -/
def itemTypeOf (db : DB) (iid : Int) : Option Int :=
  (db.items.find? (fun it => it.item_id == iid)).map (fun it => it.item_type_id)

/-- In-place flip of `is_equipped` on the first row matching a predicate;
the list is unchanged when no row matches (the `if equipped_item_of_same_type`
guard and the single-object mutations of `equip_item` / `unequip_item`). -/
def setEquippedFirst (b : Bool) : List UserItem → (UserItem → Bool) → List UserItem
  | [], _ => []
  | ui :: rest, p =>
    if p ui then { ui with is_equipped := b } :: rest
    else ui :: setEquippedFirst b rest p

/-- The `next(... item.is_equipped and item.item.item_type == item_to_equip.item.item_type ...)`
scan predicate of `equip_item`: an equipped row of the user whose item has
the given item type. -/
def typePred (typeOf : Int → Option Int) (u : Int) (t : Option Int) : UserItem → Bool :=
  fun ui => ui.user_id == u && ui.is_equipped && typeOf ui.item_id == t

/-- The `next(... item.item_id == item_id ...)` scan over `user.user_items`:
a row of the user for the given item. -/
def pairPred (u iid : Int) : UserItem → Bool :=
  fun ui => ui.user_id == u && ui.item_id == iid

/-- `equip_item` of `app/routes/user_item_mangement.py`: equips the target
row and, when some other equipped row of the same item type exists, unequips
the first such row found in the user's item collection. -/
def equip_item (db : DB) (user_id : Int) (item_id_arg : Option Int) : Result × DB :=
  match item_id_arg with
  | none => (.internalError, db)
  | some item_id =>
    if item_id == 0 then (.missingFields, db)
    else
      match db.users.find? (fun u => u.user_id == user_id) with
      | none => (.userNotFound, db)
      | some user =>
        match db.user_items.find? (pairPred user.user_id item_id) with
        | none => (.itemNotFound, db)
        | some item_to_equip =>
          (.success,
            { db with
                user_items :=
                  setEquippedFirst true
                    (setEquippedFirst false db.user_items
                      (typePred (itemTypeOf db) user.user_id
                        (itemTypeOf db item_to_equip.item_id)))
                    (pairPred user.user_id item_id) })

/-- `unequip_item` of `app/routes/user_item_mangement.py`: clears
`is_equipped` on the target row only. -/
def unequip_item (db : DB) (user_id : Int) (item_id_arg : Option Int) : Result × DB :=
  match item_id_arg with
  | none => (.internalError, db)
  | some item_id =>
    if item_id == 0 then (.missingFields, db)
    else
      match db.users.find? (fun u => u.user_id == user_id) with
      | none => (.userNotFound, db)
      | some user =>
        match db.user_items.find? (pairPred user.user_id item_id) with
        | none => (.itemNotFound, db)
        | some _ =>
          (.success,
            { db with
                user_items :=
                  setEquippedFirst false db.user_items (pairPred user.user_id item_id) })

/-- Number of equipped rows a user holds for one item type. -/
def equippedCount (typeOf : Int → Option Int) (l : List UserItem) (u : Int) (t : Option Int) : Nat :=
  (l.filter (typePred typeOf u t)).length

/-- The per-user per-type equip invariant: at most one equipped owned item of
each item type. -/
def AtMostOneEquippedPerType (db : DB) : Prop :=
  ∀ u : Int, ∀ t : Option Int, equippedCount (itemTypeOf db) db.user_items u t ≤ 1

/-- Some ownership row for the pair exists. -/
def ownsRow (l : List UserItem) (u iid : Int) : Bool :=
  l.any (pairPred u iid)

/-- Some ownership row for the pair exists and is equipped. -/
def equippedRow (l : List UserItem) (u iid : Int) : Bool :=
  l.any (fun ui => pairPred u iid ui && ui.is_equipped)

/-- All balances in the database are non-negative. -/
def NonnegBalances (db : DB) : Prop :=
  ∀ u ∈ db.users, 0 ≤ u.gold_amount ∧ 0 ≤ u.silver_amount

/-- All non-null item prices in the database are non-negative. -/
def NonnegPrices (db : DB) : Prop :=
  ∀ it ∈ db.items, 0 ≤ it.silver_cost.getD 0 ∧ 0 ≤ it.gold_cost.getD 0

/-- A concrete state: user 1 holds 100 silver and 500 gold; item 1 is a
general-store item costing 60 silver; item 2 is a premium item costing 80
gold, member of set 10, which is scheduled from 2023-06-01T00:00:00 to
2023-06-30T23:59:59 (Unix seconds 1685577600 and 1688169599); nothing is
owned yet. -/
def sampleDB : DB :=
  { users := [⟨1, "", "", "", 500, 100⟩]
    items := [⟨1, "", 1, some 60, some 50, 1, "a", true⟩,
              ⟨2, "", 1, none, some 80, 1, "b", false⟩]
    user_items := []
    premium_store_sets := [⟨10, ""⟩]
    set_item_association := [⟨1, 10, 2⟩]
    premium_store_schedules := [⟨1, 10, 1685577600, 1688169599⟩] }

/-- A state whose only general-store item has `item_id = 0`: user 1 has 100
silver, the item costs 60 silver and is not owned. -/
def dbItemZero : DB :=
  { users := [⟨1, "", "", "", 0, 100⟩]
    items := [⟨0, "", 1, some 60, none, 1, "a", true⟩]
    user_items := []
    premium_store_sets := []
    set_item_association := []
    premium_store_schedules := [] }

/-- A state where user 1 owns two unequipped items of the same item type. -/
def sampleEquipDB : DB :=
  { users := [⟨1, "", "", "", 0, 0⟩]
    items := [⟨1, "", 1, some 60, none, 1, "a", false⟩,
              ⟨2, "", 1, some 70, none, 1, "b", false⟩]
    user_items := [⟨1, 1, 1, 1, 0, false, 0, none, none, false⟩,
                   ⟨2, 1, 2, 1, 0, false, 0, none, none, false⟩]
    premium_store_sets := []
    set_item_association := []
    premium_store_schedules := [] }

/-- The premium purchase never mutates the database (it raises on the
nonexistent `is_premium_store_item` column before any write). -/
theorem buy_premium_state_eq (db : DB) (uid : Int) (p : Option Int) (now : Int) :
    (buy_premium_item db uid p now).2 = db := by
  cases p with
  | none => rfl
  | some iid =>
    simp only [buy_premium_item]
    split <;> rfl

/-- The `store.py` general purchase never mutates the database (it raises on
the nonexistent `user.silver` attribute before any write). -/
theorem store_buy_state_eq (db : DB) (uid : Int) (p : Option Int) :
    (store_buy_general_item db uid p).2 = db := by
  cases p with
  | none => rfl
  | some iid =>
    simp only [store_buy_general_item]
    split
    · rfl
    · split
      · split <;> rfl
      · rfl

/-- Complete case analysis of the `store_management.py` general purchase:
either it succeeds — and then the input passed every check and the final
state is the debited balance plus the appended default ownership row — or it
returns an error and the state is untouched. -/
theorem buy_general_cases (db : DB) (uid : Int) (p : Option Int) :
    (∃ iid user item cost,
        p = some iid
        ∧ db.users.find? (fun w => w.user_id == uid) = some user
        ∧ db.items.find? (fun w => w.item_id == iid && w.is_general_store_item) = some item
        ∧ item.silver_cost = some cost
        ∧ ¬ user.silver_amount < cost
        ∧ buy_general_item db uid p
            = (Result.success,
               { db with
                   users := debitSilverFirst db.users uid cost
                   user_items :=
                     db.user_items ++ [newUserItem (nextUserItemId db) uid iid false] }))
    ∨ ((buy_general_item db uid p).1 ≠ Result.success ∧ (buy_general_item db uid p).2 = db) := by
  cases p with
  | none => right; exact ⟨by simp [buy_general_item], rfl⟩
  | some iid =>
    by_cases h0 : (iid == 0 || uid == 0) = true
    · right; constructor <;> simp [buy_general_item, h0]
    · rcases hu : db.users.find? (fun w => w.user_id == uid) with _ | user
      · right; constructor <;> simp [buy_general_item, h0, hu]
      · rcases hit : db.items.find? (fun w => w.item_id == iid && w.is_general_store_item)
            with _ | item
        · right; constructor <;> simp [buy_general_item, h0, hu, hit]
        · rcases how : db.user_items.find? (fun w => w.user_id == uid && w.item_id == iid)
              with _ | ui2
          · rcases hc : item.silver_cost with _ | cost
            · right; constructor <;> simp [buy_general_item, h0, hu, hit, how, hc]
            · by_cases hlt : user.silver_amount < cost
              · right; constructor <;> simp [buy_general_item, h0, hu, hit, how, hc, hlt]
              · left
                exact ⟨iid, user, item, cost, rfl, hu, hit, hc, hlt,
                  by simp [buy_general_item, h0, hu, hit, how, hc, hlt]⟩
          · right; constructor <;> simp [buy_general_item, h0, hu, hit, how]

/-- C10: on both purchase endpoints, `item_id = 0` is rejected by the
presence check (the integer 0 is falsy) with the missing-required-fields
response and no state change, while an absent `item_id` makes `int(None)`
raise before the presence check, producing the generic internal-error
response. -/
theorem c10_zero_and_absent_item_id (db : DB) (uid now : Int) :
    buy_general_item db uid (some 0) = (Result.missingFields, db)
    ∧ buy_premium_item db uid (some 0) now = (Result.missingFields, db)
    ∧ buy_general_item db uid none = (Result.internalError, db)
    ∧ buy_premium_item db uid none now = (Result.internalError, db) := by
  refine ⟨?_, ?_, rfl, rfl⟩ <;> simp [buy_general_item, buy_premium_item]

/-- C3 evaluation: in `sampleDB` item 2 is live at 2023-06-15T12:00:00 and
not live at 2023-07-01T00:00:00, and user 1 has gold 500 ≥ 80; yet the
premium purchase returns the generic internal error at both instants (never
`notAvailable`, never `success`), because the route filters items by the
nonexistent `is_premium_store_item` column. -/
theorem c3_premium_buy_internal_error :
    isLive sampleDB 2 1686830400 = true
    ∧ isLive sampleDB 2 1688169600 = false
    ∧ buy_premium_item sampleDB 1 (some 2) 1686830400 = (Result.internalError, sampleDB)
    ∧ buy_premium_item sampleDB 1 (some 2) 1688169600 = (Result.internalError, sampleDB) := by
  decide

/-- C2 evaluation: the first purchase of item 1 by user 1 succeeds and leaves
40 silver; the second, instead of the distinct already-owned response,
returns the generic internal error (the code reads the nonexistent
`is_obtained` attribute of the fetched `UserItem` row) while the balance and
the ownership rows stay unchanged. -/
theorem c2_second_buy_generic_failure :
    (buy_general_item sampleDB 1 (some 1)).1 = Result.success
    ∧ ((buy_general_item sampleDB 1 (some 1)).2.users.map (fun u => u.silver_amount)) = [40]
    ∧ buy_general_item (buy_general_item sampleDB 1 (some 1)).2 1 (some 1)
        = (Result.internalError, (buy_general_item sampleDB 1 (some 1)).2) := by
  decide

/-- C9 counterexample: on the same state and input the two implementations of
the general-store purchase disagree (the `store_management.py` one succeeds,
the `store.py` one raises on the nonexistent `user.silver` attribute). -/
theorem c9_counterexample :
    store_buy_general_item sampleDB 1 (some 1) ≠ buy_general_item sampleDB 1 (some 1) := by
  decide

/-- C1 counterexample: in `dbItemZero` the user exists with 100 silver, item
0 is a general-store item costing 60 and is not owned, yet the purchase does
not succeed — the presence check mistakes `item_id = 0` for a missing field. -/
theorem c1_counterexample :
    ((dbItemZero.users.find? (fun u => u.user_id == 1)).map (fun u => u.silver_amount))
        = some 100
    ∧ ((dbItemZero.items.find? (fun it => it.item_id == 0 && it.is_general_store_item)).map
        (fun it => it.silver_cost)) = some (some 60)
    ∧ dbItemZero.user_items = []
    ∧ (buy_general_item dbItemZero 1 (some 0)).1 = Result.missingFields
    ∧ (buy_general_item dbItemZero 1 (some 0)).1 ≠ Result.success := by
  decide

/-- Debiting the fetched user row updates exactly the row `find?` returns. -/
theorem find?_debitSilverFirst : ∀ (l : List User) (uid amt : Int) (u : User),
    l.find? (fun w => w.user_id == uid) = some u →
    (debitSilverFirst l uid amt).find? (fun w => w.user_id == uid)
      = some { u with silver_amount := u.silver_amount - amt } := by
  intro l
  induction l with
  | nil => intro uid amt u h; simp at h
  | cons a rest ih =>
    intro uid amt u h
    by_cases ha : (a.user_id == uid) = true
    · have h2 : List.find? (fun w => w.user_id == uid) (a :: rest) = some a :=
        List.find?_cons_of_pos rest ha
      rw [h2] at h
      obtain rfl : a = u := Option.some.inj h
      simp only [debitSilverFirst, if_pos ha]
      exact List.find?_cons_of_pos rest ha
    · have h2 : List.find? (fun w => w.user_id == uid) (a :: rest)
          = List.find? (fun w => w.user_id == uid) rest :=
        List.find?_cons_of_neg rest (by simpa using ha)
      rw [h2] at h
      simp only [debitSilverFirst, if_neg ha]
      have h3 : List.find? (fun w => w.user_id == uid)
            (a :: debitSilverFirst rest uid amt)
          = List.find? (fun w => w.user_id == uid) (debitSilverFirst rest uid amt) :=
        List.find?_cons_of_neg _ (by simpa using ha)
      rw [h3]
      exact ih uid amt u h

/-- Debiting at most the fetched user's silver keeps every balance
non-negative. -/
theorem nonneg_debit : ∀ (l : List User) (uid c : Int) (u : User),
    l.find? (fun w => w.user_id == uid) = some u → 0 ≤ c → c ≤ u.silver_amount →
    (∀ w ∈ l, 0 ≤ w.gold_amount ∧ 0 ≤ w.silver_amount) →
    ∀ w ∈ debitSilverFirst l uid c, 0 ≤ w.gold_amount ∧ 0 ≤ w.silver_amount := by
  intro l
  induction l with
  | nil => intro uid c u h; simp at h
  | cons a rest ih =>
    intro uid c u hf hc hcu h w hw
    by_cases ha : (a.user_id == uid) = true
    · have h2 : List.find? (fun w => w.user_id == uid) (a :: rest) = some a :=
        List.find?_cons_of_pos rest ha
      rw [h2] at hf
      obtain rfl : a = u := Option.some.inj hf
      simp only [debitSilverFirst, if_pos ha] at hw
      rcases List.mem_cons.mp hw with rfl | hw2
      · refine ⟨(h a (by simp)).1, ?_⟩
        show 0 ≤ a.silver_amount - c
        omega
      · exact h w (List.mem_cons_of_mem _ hw2)
    · have h2 : List.find? (fun w => w.user_id == uid) (a :: rest)
          = List.find? (fun w => w.user_id == uid) rest :=
        List.find?_cons_of_neg rest (by simpa using ha)
      rw [h2] at hf
      simp only [debitSilverFirst, if_neg ha] at hw
      rcases List.mem_cons.mp hw with rfl | hw2
      · exact h w (by simp)
      · exact ih uid c u hf hc hcu (fun x hx => h x (List.mem_cons_of_mem _ hx)) w hw2

/-- C5: a purchase call that does not succeed leaves the database exactly as
it was — every validation (and every raised exception) happens before any
mutation is committed, on the general path of `store_management.py`, the
general path of `store.py`, and the premium path. -/
theorem c5_errors_leave_state_unchanged (db : DB) (uid : Int) (p : Option Int) (now : Int) :
    ((buy_general_item db uid p).1 ≠ Result.success → (buy_general_item db uid p).2 = db)
    ∧ ((store_buy_general_item db uid p).1 ≠ Result.success →
        (store_buy_general_item db uid p).2 = db)
    ∧ ((buy_premium_item db uid p now).1 ≠ Result.success →
        (buy_premium_item db uid p now).2 = db) := by
  refine ⟨?_, fun _ => store_buy_state_eq db uid p, fun _ => buy_premium_state_eq db uid p now⟩
  intro h
  rcases buy_general_cases db uid p with ⟨iid, user, item, cost, _, _, _, _, _, heq⟩ | ⟨_, h2⟩
  · rw [heq] at h; exact absurd rfl h
  · exact h2

/-- C5 witness: a not-found error on a concrete state leaves it unchanged. -/
theorem c5_witness :
    (buy_general_item sampleDB 7 (some 1)).1 ≠ Result.success
    ∧ (buy_general_item sampleDB 7 (some 1)).2 = sampleDB :=
  ⟨by decide, (c5_errors_leave_state_unchanged sampleDB 7 (some 1) 0).1 (by decide)⟩

/-- C7: a successful general purchase appends exactly one ownership row, and
that row carries the default state: unequipped, not favorite, level 1, zero
xp, prestige 0, no chroma and no shader selected. -/
theorem c7_first_purchase_defaults (db : DB) (uid : Int) (p : Option Int)
    (h : (buy_general_item db uid p).1 = Result.success) :
    ∃ r, (buy_general_item db uid p).2.user_items = db.user_items ++ [r]
      ∧ r.is_equipped = false ∧ r.favorite = false ∧ r.item_level = 1 ∧ r.item_xp = 0
      ∧ r.prestige_level = 0 ∧ r.selected_chroma_id = none ∧ r.selected_shader_id = none := by
  rcases buy_general_cases db uid p with ⟨iid, user, item, cost, _, _, _, _, _, heq⟩ | ⟨hne, _⟩
  · rw [heq]
    exact ⟨newUserItem (nextUserItemId db) uid iid false, rfl, rfl, rfl, rfl, rfl, rfl, rfl, rfl⟩
  · exact absurd h hne

/-- C7 witness: user 1 buying item 1 in the concrete state creates the
default row. -/
theorem c7_witness :
    ∃ r, (buy_general_item sampleDB 1 (some 1)).2.user_items = sampleDB.user_items ++ [r]
      ∧ r.is_equipped = false ∧ r.favorite = false ∧ r.item_level = 1 ∧ r.item_xp = 0
      ∧ r.prestige_level = 0 ∧ r.selected_chroma_id = none ∧ r.selected_shader_id = none :=
  c7_first_purchase_defaults sampleDB 1 (some 1) (by decide)

/-- C1 amended: for a user and a general-store item whose ids are nonzero
(ids the presence check mistakes for absent fields — see C10), if the user
exists, the item is a general-store item priced `c` silver, the user does not
own it and holds at least `c` silver, then the purchase succeeds, the silver
balance drops by exactly `c`, and an ownership row for the pair exists
afterwards. -/
theorem c1_buy_general_success (db : DB) (uid iid c : Int) (u : User) (it : Item)
    (hu0 : uid ≠ 0) (hi0 : iid ≠ 0)
    (hu : db.users.find? (fun w => w.user_id == uid) = some u)
    (hit : db.items.find? (fun w => w.item_id == iid && w.is_general_store_item) = some it)
    (hc : it.silver_cost = some c)
    (hown : db.user_items.find? (fun w => w.user_id == uid && w.item_id == iid) = none)
    (hbal : c ≤ u.silver_amount) :
    (buy_general_item db uid (some iid)).1 = Result.success
    ∧ ((buy_general_item db uid (some iid)).2.users.find? (fun w => w.user_id == uid)).map
        (fun w => w.silver_amount) = some (u.silver_amount - c)
    ∧ ownsRow (buy_general_item db uid (some iid)).2.user_items uid iid = true := by
  have hi0b : (iid == 0) = false := by simpa using hi0
  have hu0b : (uid == 0) = false := by simpa using hu0
  have hnl : ¬ u.silver_amount < c := not_lt.mpr hbal
  have hred : buy_general_item db uid (some iid)
      = (Result.success,
         { db with
             users := debitSilverFirst db.users uid c
             user_items := db.user_items ++ [newUserItem (nextUserItemId db) uid iid false] }) := by
    simp [buy_general_item, hi0b, hu0b, hu, hit, hc, hown, hnl]
  rw [hred]
  refine ⟨rfl, ?_, ?_⟩
  · rw [find?_debitSilverFirst db.users uid c u hu]; rfl
  · simp [ownsRow, pairPred, newUserItem]

/-- C1 witness: the amended statement at the concrete state — user 1 with
100 silver buys general item 1 priced 60, ends at 40 silver and owns it. -/
theorem c1_witness :
    (buy_general_item sampleDB 1 (some 1)).1 = Result.success
    ∧ ((buy_general_item sampleDB 1 (some 1)).2.users.find? (fun w => w.user_id == 1)).map
        (fun w => w.silver_amount) = some (100 - 60)
    ∧ ownsRow (buy_general_item sampleDB 1 (some 1)).2.user_items 1 1 = true :=
  c1_buy_general_success sampleDB 1 1 60 ⟨1, "", "", "", 500, 100⟩
    ⟨1, "", 1, some 60, some 50, 1, "a", true⟩
    (by decide) (by decide) (by decide) (by decide) (by decide) (by decide) (by decide)

/-- C8: when every stored balance and every non-null price is non-negative,
both purchase operations keep every stored balance non-negative — the funds
check rejects before the debit, so a successful debit removes at most the
available silver. -/
theorem c8_balances_stay_nonneg (db : DB) (uid : Int) (p : Option Int) (now : Int)
    (hb : NonnegBalances db) (hp : NonnegPrices db) :
    NonnegBalances (buy_general_item db uid p).2
    ∧ NonnegBalances (buy_premium_item db uid p now).2 := by
  refine ⟨?_, by rw [buy_premium_state_eq]; exact hb⟩
  rcases buy_general_cases db uid p with ⟨iid, user, item, cost, _, hu, hit, hc, hlt, heq⟩ | ⟨_, h2⟩
  · rw [heq]
    have hc0 : 0 ≤ cost := by
      have hmem := hp item (List.mem_of_find?_eq_some hit)
      rw [hc] at hmem
      simpa using hmem.1
    exact nonneg_debit db.users uid cost user hu hc0 (not_lt.mp hlt) hb
  · rw [h2]; exact hb

/-- C8 witness: the concrete purchase keeps all balances non-negative. -/
theorem c8_witness :
    NonnegBalances (buy_general_item sampleDB 1 (some 1)).2
    ∧ NonnegBalances (buy_premium_item sampleDB 1 (some 1) 0).2 :=
  c8_balances_stay_nonneg sampleDB 1 (some 1) 0
    (by intro u hu; fin_cases hu <;> exact ⟨by decide, by decide⟩)
    (by intro it hit; fin_cases hit <;> exact ⟨by decide, by decide⟩)

/-- C9 amended: the two general-purchase implementations agree on every input
on which execution stops before the silver funds check (missing fields,
unknown user or item, existing ownership row); on every input that reaches
the funds check, the `store.py` version instead raises on the nonexistent
`user.silver` attribute and answers the generic internal error with the
state unchanged, while the `store_management.py` version carries out the
purchase. -/
theorem c9_store_vs_store_management (db : DB) (uid : Int) (p : Option Int) :
    store_buy_general_item db uid p =
      if reachesFundsCheck db uid p then (Result.internalError, db)
      else buy_general_item db uid p := by
  cases p with
  | none => rfl
  | some iid =>
    by_cases h0 : (iid == 0 || uid == 0) = true
    · simp [store_buy_general_item, buy_general_item, reachesFundsCheck, h0]
    · rcases hu : db.users.find? (fun w => w.user_id == uid) with _ | user
      · simp [store_buy_general_item, buy_general_item, reachesFundsCheck, h0, hu]
      · rcases hit : db.items.find? (fun w => w.item_id == iid && w.is_general_store_item)
            with _ | item
        · simp [store_buy_general_item, buy_general_item, reachesFundsCheck, h0, hu, hit]
        · rcases how : db.user_items.find? (fun w => w.user_id == uid && w.item_id == iid)
              with _ | ui2
          · simp [store_buy_general_item, buy_general_item, reachesFundsCheck, h0, hu, hit, how]
          · simp [store_buy_general_item, buy_general_item, reachesFundsCheck, h0, hu, hit, how]

/-- An item is live at an instant exactly when some set it belongs to exists
and has a schedule row whose inclusive window contains the instant. -/
theorem isLive_iff (db : DB) (iid now : Int) :
    isLive db iid now = true ↔
      ∃ s, s ∈ db.premium_store_sets
        ∧ (∃ sch, sch ∈ db.premium_store_schedules ∧ sch.set_id = s.set_id
            ∧ sch.start_date ≤ now ∧ now ≤ sch.end_date)
        ∧ ∃ a, a ∈ db.set_item_association ∧ a.set_id = s.set_id ∧ a.item_id = iid := by
  simp only [isLive, currentPremiumItemIds, currentSets, setItemIds, scheduleCovers,
    List.contains_iff_exists_mem_beq, List.mem_flatMap, List.mem_filter, List.mem_map,
    List.any_eq_true, Bool.and_eq_true, beq_iff_eq, decide_eq_true_eq, ge_iff_le]
  constructor
  · rintro ⟨x, ⟨s, ⟨hs, sch, hsch, hss, hc1, hc2⟩, a, ⟨ha, has⟩, hax⟩, hx⟩
    exact ⟨s, hs, ⟨sch, hsch, hss, hc1, hc2⟩, a, ha, has, by omega⟩
  · rintro ⟨s, hs, ⟨sch, hsch, hss, hc1, hc2⟩, a, ha, has, hai⟩
    exact ⟨iid, ⟨s, ⟨hs, sch, hsch, hss, hc1, hc2⟩, a, ⟨ha, has⟩, hai⟩, rfl⟩

/-- C4: for an item i in a premium set covered by a schedule `[t0, t1]`,
`isLive(i, t)` holds at every instant with `t0 ≤ t ≤ t1` (both bounds
inclusive) — any live schedule of any set containing the item suffices — and
fails at every instant outside the window that no schedule of any set
containing i covers. -/
theorem c4_schedule_window (db : DB) (i t0 t1 : Int) (s : PremiumStoreSet)
    (a : SetItemAssociation) (sch : PremiumStoreSchedule)
    (hs : s ∈ db.premium_store_sets) (ha : a ∈ db.set_item_association)
    (has : a.set_id = s.set_id) (hai : a.item_id = i)
    (hsch : sch ∈ db.premium_store_schedules) (hss : sch.set_id = s.set_id)
    (h0 : sch.start_date = t0) (h1 : sch.end_date = t1) :
    (∀ t : Int, t0 ≤ t → t ≤ t1 → isLive db i t = true)
    ∧ (∀ t : Int, (t < t0 ∨ t1 < t) →
        (∀ s2 ∈ db.premium_store_sets, ∀ a2 ∈ db.set_item_association,
          a2.set_id = s2.set_id → a2.item_id = i →
          ∀ sch2 ∈ db.premium_store_schedules, sch2.set_id = s2.set_id →
          ¬(sch2.start_date ≤ t ∧ t ≤ sch2.end_date)) →
        isLive db i t = false) := by
  constructor
  · intro t ht0 ht1
    exact (isLive_iff db i t).mpr
      ⟨s, hs, ⟨sch, hsch, hss, by omega, by omega⟩, a, ha, has, hai⟩
  · intro t _ hnone
    cases hx : isLive db i t
    · rfl
    · obtain ⟨s2, hs2, ⟨sch2, hsch2, hss2, hc1, hc2⟩, a2, ha2, has2, hai2⟩ :=
        (isLive_iff db i t).mp hx
      exact absurd ⟨hc1, hc2⟩ (hnone s2 hs2 a2 ha2 has2 hai2 sch2 hsch2 hss2)

/-- C4 witness: in the concrete state, item 2 is live at the inclusive start
bound of its set's schedule and not live one second before it. -/
theorem c4_witness :
    isLive sampleDB 2 1685577600 = true ∧ isLive sampleDB 2 1685577599 = false :=
  ⟨(c4_schedule_window sampleDB 2 1685577600 1688169599 ⟨10, ""⟩ ⟨1, 10, 2⟩
      ⟨1, 10, 1685577600, 1688169599⟩ (by decide) (by decide) rfl rfl (by decide)
      rfl rfl rfl).1 1685577600 (by decide) (by decide),
   (c4_schedule_window sampleDB 2 1685577600 1688169599 ⟨10, ""⟩ ⟨1, 10, 2⟩
      ⟨1, 10, 1685577600, 1688169599⟩ (by decide) (by decide) rfl rfl (by decide)
      rfl rfl rfl).2 1685577599 (by decide) (by decide)⟩

/-- Unequipping one row never increases the number of equipped rows of any
user/type cell. -/
theorem count_setFalse_le : ∀ (typeOf : Int → Option Int) (l : List UserItem)
    (p : UserItem → Bool) (u : Int) (t : Option Int),
    equippedCount typeOf (setEquippedFirst false l p) u t ≤ equippedCount typeOf l u t := by
  intro typeOf l p u t
  induction l with
  | nil => exact Nat.le_refl _
  | cons a rest ih =>
    by_cases hp : p a = true
    · have hfalse : typePred typeOf u t { a with is_equipped := false } = false := by
        simp [typePred]
      simp only [setEquippedFirst, if_pos hp, equippedCount, List.filter_cons, hfalse,
        Bool.false_eq_true, if_false]
      by_cases ha : typePred typeOf u t a = true
      · simp only [if_pos ha, List.length_cons]
        exact Nat.le_succ _
      · simp only [if_neg ha]
        exact Nat.le_refl _
    · simp only [setEquippedFirst, if_neg hp, equippedCount, List.filter_cons] at ih ⊢
      by_cases ha : typePred typeOf u t a = true
      · simp only [if_pos ha, List.length_cons]
        omega
      · simp only [if_neg ha]
        exact ih

/-- When a cell holds at most one equipped row, unequipping the first row of
that cell empties it. -/
theorem count_setFalse_self_eq_zero : ∀ (typeOf : Int → Option Int) (l : List UserItem)
    (u : Int) (t : Option Int),
    equippedCount typeOf l u t ≤ 1 →
    equippedCount typeOf (setEquippedFirst false l (typePred typeOf u t)) u t = 0 := by
  intro typeOf l u t
  induction l with
  | nil => intro _; rfl
  | cons a rest ih =>
    intro hle
    by_cases ha : typePred typeOf u t a = true
    · have hfalse : typePred typeOf u t { a with is_equipped := false } = false := by
        simp [typePred]
      simp only [equippedCount, List.filter_cons, if_pos ha, List.length_cons] at hle
      simp only [setEquippedFirst, if_pos ha, equippedCount, List.filter_cons, hfalse,
        Bool.false_eq_true, if_false]
      simp only [equippedCount] at ih ⊢
      omega
    · simp only [setEquippedFirst, if_neg ha]
      simp only [equippedCount, List.filter_cons, if_neg ha] at hle ⊢
      exact ih hle

/-- Equipping one row increases the count of a cell by at most one. -/
theorem count_setTrue_le_succ : ∀ (typeOf : Int → Option Int) (l : List UserItem)
    (q : UserItem → Bool) (u : Int) (t : Option Int),
    equippedCount typeOf (setEquippedFirst true l q) u t ≤ equippedCount typeOf l u t + 1 := by
  intro typeOf l q u t
  induction l with
  | nil => exact Nat.zero_le _
  | cons a rest ih =>
    by_cases hq : q a = true
    · simp only [setEquippedFirst, if_pos hq, equippedCount, List.filter_cons]
      by_cases ht : typePred typeOf u t { a with is_equipped := true } = true
      · simp only [if_pos ht, List.length_cons]
        by_cases ha : typePred typeOf u t a = true
        · simp only [if_pos ha, List.length_cons]; omega
        · simp only [if_neg ha]; omega
      · simp only [if_neg ht]
        by_cases ha : typePred typeOf u t a = true
        · simp only [if_pos ha, List.length_cons]; omega
        · simp only [if_neg ha]; omega
    · simp only [setEquippedFirst, if_neg hq, equippedCount, List.filter_cons] at ih ⊢
      by_cases ha : typePred typeOf u t a = true
      · simp only [if_pos ha, List.length_cons]; omega
      · simp only [if_neg ha]; exact ih

/-- Flipping the equip flag on rows of a different user or item type leaves a
cell's count unchanged. -/
theorem count_set_eq_of_mismatch : ∀ (typeOf : Int → Option Int) (b : Bool)
    (l : List UserItem) (q : UserItem → Bool) (u : Int) (t : Option Int),
    (∀ ui, q ui = true → (ui.user_id == u && typeOf ui.item_id == t) = false) →
    equippedCount typeOf (setEquippedFirst b l q) u t = equippedCount typeOf l u t := by
  intro typeOf b l q u t hmis
  induction l with
  | nil => rfl
  | cons a rest ih =>
    by_cases hq : q a = true
    · have hcell := hmis a hq
      have h1 : typePred typeOf u t { a with is_equipped := b } = false := by
        simp only [typePred]
        rcases Bool.and_eq_false_iff.mp hcell with h | h <;> simp [h]
      have h2 : typePred typeOf u t a = false := by
        simp only [typePred]
        rcases Bool.and_eq_false_iff.mp hcell with h | h <;> simp [h]
      simp only [setEquippedFirst, if_pos hq, equippedCount, List.filter_cons, h1, h2,
        Bool.false_eq_true, if_false]
    · simp only [setEquippedFirst, if_neg hq, equippedCount, List.filter_cons] at ih ⊢
      by_cases ha : typePred typeOf u t a = true
      · simp only [if_pos ha, List.length_cons, ih]
      · simp only [if_neg ha, ih]

/-- Appending an unequipped row leaves every cell's count unchanged. -/
theorem count_append_unequipped (typeOf : Int → Option Int) (l : List UserItem)
    (r : UserItem) (u : Int) (t : Option Int) (hr : r.is_equipped = false) :
    equippedCount typeOf (l ++ [r]) u t = equippedCount typeOf l u t := by
  have hfalse : typePred typeOf u t r = false := by simp [typePred, hr]
  simp [equippedCount, List.filter_append, hfalse]

/-- Flipping equip flags never changes which (user, item) pairs are owned. -/
theorem ownsRow_setEquippedFirst : ∀ (b : Bool) (l : List UserItem)
    (p : UserItem → Bool) (u iid : Int),
    ownsRow (setEquippedFirst b l p) u iid = ownsRow l u iid := by
  intro b l p u iid
  induction l with
  | nil => rfl
  | cons a rest ih =>
    by_cases hp : p a = true
    · have : pairPred u iid { a with is_equipped := b } = pairPred u iid a := rfl
      simp only [setEquippedFirst, if_pos hp, ownsRow, List.any_cons, this]
    · simp only [setEquippedFirst, if_neg hp, ownsRow, List.any_cons] at ih ⊢
      rw [ih]

/-- Equipping the first row of an owned pair makes that pair equipped. -/
theorem equippedRow_setTrue_pair : ∀ (l : List UserItem) (u iid : Int),
    ownsRow l u iid = true →
    equippedRow (setEquippedFirst true l (pairPred u iid)) u iid = true := by
  intro l u iid
  induction l with
  | nil => intro h; simp [ownsRow] at h
  | cons a rest ih =>
    intro h
    by_cases hp : pairPred u iid a = true
    · have hpair : pairPred u iid { a with is_equipped := true } = true := hp
      simp only [setEquippedFirst, if_pos hp, equippedRow, List.any_cons, hpair,
        Bool.true_and, Bool.true_or]
    · have hpf : pairPred u iid a = false := by simpa using hp
      simp only [ownsRow, List.any_cons, hpf, Bool.false_or] at h
      simp only [setEquippedFirst, hpf, Bool.false_eq_true, if_false]
      simp only [equippedRow, List.any_cons, hpf, Bool.false_and, Bool.false_or]
      exact ih h

/-- Flipping the flag on rows of other items does not change whether a given
pair is equipped. -/
theorem equippedRow_set_eq_of_item_ne : ∀ (b : Bool) (l : List UserItem)
    (q : UserItem → Bool) (u iid : Int),
    (∀ ui, q ui = true → (ui.item_id == iid) = false) →
    equippedRow (setEquippedFirst b l q) u iid = equippedRow l u iid := by
  intro b l q u iid hne
  induction l with
  | nil => rfl
  | cons a rest ih =>
    by_cases hq : q a = true
    · have hitem := hne a hq
      have h1 : (pairPred u iid { a with is_equipped := b }
          && ({ a with is_equipped := b } : UserItem).is_equipped) = false := by
        simp [pairPred, hitem]
      have h2 : (pairPred u iid a && a.is_equipped) = false := by
        simp [pairPred, hitem]
      simp only [setEquippedFirst, if_pos hq, equippedRow, List.any_cons, h1, h2]
    · simp only [setEquippedFirst, if_neg hq, equippedRow, List.any_cons] at ih ⊢
      rw [ih]

/-- In a cell with zero equipped rows, no item of that type is equipped. -/
theorem equippedRow_false_of_count_zero : ∀ (typeOf : Int → Option Int)
    (l : List UserItem) (u : Int) (t : Option Int) (iid : Int),
    typeOf iid = t → equippedCount typeOf l u t = 0 → equippedRow l u iid = false := by
  intro typeOf l u t iid hty
  induction l with
  | nil => intro _; rfl
  | cons a rest ih =>
    intro h0
    by_cases ha : typePred typeOf u t a = true
    · simp only [equippedCount, List.filter_cons, if_pos ha, List.length_cons] at h0
      omega
    · simp only [equippedCount, List.filter_cons, if_neg ha] at h0
      have hhead : (pairPred u iid a && a.is_equipped) = false := by
        by_cases he : a.is_equipped = true
        · by_cases hu : (a.user_id == u) = true
          · by_cases hi : (a.item_id == iid) = true
            · exfalso
              apply ha
              have hieq : a.item_id = iid := by simpa using hi
              simp [typePred, hu, he, hieq, hty]
            · simp [pairPred, hi]
          · simp [pairPred, hu]
        · simp [he]
      simp only [equippedRow, List.any_cons, hhead, Bool.false_or]
      exact ih h0

/-- Complete case analysis of `equip_item`: either it succeeds — the user and
target row were found, and the new state unequips the first equipped
same-type row then equips the target — or it leaves the state untouched. -/
theorem equip_item_cases (db : DB) (uid : Int) (p : Option Int) :
    (∃ iid user target,
        p = some iid
        ∧ db.users.find? (fun w => w.user_id == uid) = some user
        ∧ db.user_items.find? (pairPred user.user_id iid) = some target
        ∧ equip_item db uid p
            = (Result.success,
               { db with
                   user_items :=
                     setEquippedFirst true
                       (setEquippedFirst false db.user_items
                         (typePred (itemTypeOf db) user.user_id
                           (itemTypeOf db target.item_id)))
                       (pairPred user.user_id iid) }))
    ∨ (equip_item db uid p).2 = db := by
  cases p with
  | none => right; rfl
  | some iid =>
    by_cases h0 : (iid == 0) = true
    · right; simp [equip_item, h0]
    · rcases hu : db.users.find? (fun w => w.user_id == uid) with _ | user
      · right; simp [equip_item, h0, hu]
      · rcases hit : db.user_items.find? (pairPred user.user_id iid) with _ | target
        · right; simp [equip_item, h0, hu, hit]
        · left
          exact ⟨iid, user, target, rfl, hu, hit, by simp [equip_item, h0, hu, hit]⟩

/-- Complete case analysis of `unequip_item`: either it succeeds and only
unequips the first row of the target pair, or it leaves the state
untouched. -/
theorem unequip_item_cases (db : DB) (uid : Int) (p : Option Int) :
    (∃ (iid : Int) (user : User),
        p = some iid
        ∧ db.users.find? (fun w => w.user_id == uid) = some user
        ∧ unequip_item db uid p
            = (Result.success,
               { db with
                   user_items :=
                     setEquippedFirst false db.user_items (pairPred user.user_id iid) }))
    ∨ (unequip_item db uid p).2 = db := by
  cases p with
  | none => right; rfl
  | some iid =>
    by_cases h0 : (iid == 0) = true
    · right; simp [unequip_item, h0]
    · rcases hu : db.users.find? (fun w => w.user_id == uid) with _ | user
      · right; simp [unequip_item, h0, hu]
      · rcases hit : db.user_items.find? (pairPred user.user_id iid) with _ | target
        · right; simp [unequip_item, h0, hu, hit]
        · left
          exact ⟨iid, user, rfl, hu, by simp [unequip_item, h0, hu, hit]⟩

/-- `equip_item` preserves the at-most-one-equipped-per-type invariant. -/
theorem equip_preserves_atMostOne (db : DB) (uid : Int) (p : Option Int)
    (hinv : AtMostOneEquippedPerType db) :
    AtMostOneEquippedPerType (equip_item db uid p).2 := by
  rcases equip_item_cases db uid p with ⟨iid, user, target, hp, hu, hit, heq⟩ | heq
  · rw [heq]
    intro u t
    show equippedCount (itemTypeOf db)
        (setEquippedFirst true
          (setEquippedFirst false db.user_items
            (typePred (itemTypeOf db) user.user_id (itemTypeOf db target.item_id)))
          (pairPred user.user_id iid)) u t ≤ 1
    have htid : target.item_id = iid := by
      have := List.find?_some hit
      simp only [pairPred, Bool.and_eq_true, beq_iff_eq] at this
      exact this.2
    by_cases hcell : u = user.user_id ∧ t = itemTypeOf db target.item_id
    · obtain ⟨rfl, rfl⟩ := hcell
      have h0 : equippedCount (itemTypeOf db)
          (setEquippedFirst false db.user_items
            (typePred (itemTypeOf db) user.user_id (itemTypeOf db target.item_id)))
          user.user_id (itemTypeOf db target.item_id) = 0 :=
        count_setFalse_self_eq_zero (itemTypeOf db) db.user_items user.user_id
          (itemTypeOf db target.item_id) (hinv user.user_id (itemTypeOf db target.item_id))
      have hle := count_setTrue_le_succ (itemTypeOf db)
        (setEquippedFirst false db.user_items
          (typePred (itemTypeOf db) user.user_id (itemTypeOf db target.item_id)))
        (pairPred user.user_id iid) user.user_id (itemTypeOf db target.item_id)
      omega
    · have hmis : ∀ ui, pairPred user.user_id iid ui = true →
          (ui.user_id == u && itemTypeOf db ui.item_id == t) = false := by
        intro ui hui
        simp only [pairPred, Bool.and_eq_true, beq_iff_eq] at hui
        rcases not_and_or.mp hcell with hne | hne
        · have : (ui.user_id == u) = false := by
            rw [hui.1]
            exact beq_eq_false_iff_ne.mpr (fun hx => hne hx.symm)
          simp [this]
        · have : (itemTypeOf db ui.item_id == t) = false := by
            rw [hui.2, ← htid]
            exact beq_eq_false_iff_ne.mpr (fun hx => hne hx.symm)
          simp [this]
      rw [count_set_eq_of_mismatch (itemTypeOf db) true _ (pairPred user.user_id iid) u t hmis]
      exact Nat.le_trans
        (count_setFalse_le (itemTypeOf db) db.user_items
          (typePred (itemTypeOf db) user.user_id (itemTypeOf db target.item_id)) u t)
        (hinv u t)
  · rw [heq]
    exact hinv

/-- `unequip_item` preserves the at-most-one-equipped-per-type invariant. -/
theorem unequip_preserves_atMostOne (db : DB) (uid : Int) (p : Option Int)
    (hinv : AtMostOneEquippedPerType db) :
    AtMostOneEquippedPerType (unequip_item db uid p).2 := by
  rcases unequip_item_cases db uid p with ⟨iid, user, hp, hu, heq⟩ | heq
  · rw [heq]
    intro u t
    show equippedCount (itemTypeOf db)
        (setEquippedFirst false db.user_items (pairPred user.user_id iid)) u t ≤ 1
    exact Nat.le_trans
      (count_setFalse_le (itemTypeOf db) db.user_items (pairPred user.user_id iid) u t)
      (hinv u t)
  · rw [heq]
    exact hinv

/-- `buy_general_item` preserves the at-most-one-equipped-per-type invariant
(the granted row is created unequipped). -/
theorem buy_general_preserves_atMostOne (db : DB) (uid : Int) (p : Option Int)
    (hinv : AtMostOneEquippedPerType db) :
    AtMostOneEquippedPerType (buy_general_item db uid p).2 := by
  rcases buy_general_cases db uid p with ⟨iid, user, item, cost, _, _, _, _, _, heq⟩ | ⟨_, heq⟩
  · rw [heq]
    intro u t
    show equippedCount (itemTypeOf db)
        (db.user_items ++ [newUserItem (nextUserItemId db) uid iid false]) u t ≤ 1
    rw [count_append_unequipped (itemTypeOf db) db.user_items
      (newUserItem (nextUserItemId db) uid iid false) u t rfl]
    exact hinv u t
  · rw [heq]
    exact hinv

/-- Equipping item a and then item b of the same item type leaves a
unequipped and b equipped. -/
theorem equip_twice_same_type (db : DB) (u a b : Int)
    (ha0 : a ≠ 0) (hb0 : b ≠ 0) (hab : a ≠ b)
    (husome : (db.users.find? (fun w => w.user_id == u)).isSome = true)
    (hoa : ownsRow db.user_items u a = true)
    (hob : ownsRow db.user_items u b = true)
    (htype : itemTypeOf db a = itemTypeOf db b)
    (hinv : AtMostOneEquippedPerType db) :
    equippedRow (equip_item (equip_item db u (some a)).2 u (some b)).2.user_items u a = false
    ∧ equippedRow (equip_item (equip_item db u (some a)).2 u (some b)).2.user_items u b
        = true := by
  rcases hu : db.users.find? (fun w => w.user_id == u) with _ | usr
  · rw [hu] at husome; simp at husome
  · have husr : usr.user_id = u := by
      have := List.find?_some hu
      simpa using this
    have ha0b : (a == 0) = false := by simpa using ha0
    have hb0b : (b == 0) = false := by simpa using hb0
    have hexA : ∃ rowA, db.user_items.find? (pairPred u a) = some rowA := by
      rcases hx : db.user_items.find? (pairPred u a) with _ | rowA
      · exfalso
        rw [List.find?_eq_none] at hx
        rw [ownsRow, List.any_eq_true] at hoa
        obtain ⟨x, hxm, hpx⟩ := hoa
        exact (hx x hxm) hpx
      · exact ⟨rowA, rfl⟩
    obtain ⟨rowA, hfA⟩ := hexA
    have hrowAid : rowA.item_id = a := by
      have := List.find?_some hfA
      simp only [pairPred, Bool.and_eq_true, beq_iff_eq] at this
      exact this.2
    have hppa : pairPred usr.user_id a = pairPred u a := by rw [husr]
    have htpa : typePred (itemTypeOf db) usr.user_id (itemTypeOf db rowA.item_id)
        = typePred (itemTypeOf db) u (itemTypeOf db a) := by rw [husr, hrowAid]
    have hd1 : equip_item db u (some a)
        = (Result.success,
           { db with
               user_items :=
                 setEquippedFirst true
                   (setEquippedFirst false db.user_items
                     (typePred (itemTypeOf db) u (itemTypeOf db a)))
                   (pairPred u a) }) := by
      simp [equip_item, ha0b, hu, hppa, hfA, htpa]
    set l1 : List UserItem := setEquippedFirst true
        (setEquippedFirst false db.user_items
          (typePred (itemTypeOf db) u (itemTypeOf db a)))
        (pairPred u a) with hl1
    have hinv1 : AtMostOneEquippedPerType (equip_item db u (some a)).2 :=
      equip_preserves_atMostOne db u (some a) hinv
    rw [hd1] at hinv1
    have hoB1 : ownsRow l1 u b = true := by
      rw [hl1, ownsRow_setEquippedFirst, ownsRow_setEquippedFirst]
      exact hob
    have hexB : ∃ rowB, l1.find? (pairPred u b) = some rowB := by
      rcases hx : l1.find? (pairPred u b) with _ | rowB
      · exfalso
        rw [List.find?_eq_none] at hx
        rw [ownsRow, List.any_eq_true] at hoB1
        obtain ⟨x, hxm, hpx⟩ := hoB1
        exact (hx x hxm) hpx
      · exact ⟨rowB, rfl⟩
    obtain ⟨rowB, hfB⟩ := hexB
    have hrowBid : rowB.item_id = b := by
      have := List.find?_some hfB
      simp only [pairPred, Bool.and_eq_true, beq_iff_eq] at this
      exact this.2
    have hppb : pairPred usr.user_id b = pairPred u b := by rw [husr]
    have htpb : typePred (itemTypeOf db) usr.user_id (itemTypeOf db rowB.item_id)
        = typePred (itemTypeOf db) u (itemTypeOf db b) := by rw [husr, hrowBid]
    have hTeq : itemTypeOf { db with user_items := l1 } = itemTypeOf db := rfl
    have hd2 : equip_item (equip_item db u (some a)).2 u (some b)
        = (Result.success,
           { db with
               user_items :=
                 setEquippedFirst true
                   (setEquippedFirst false l1
                     (typePred (itemTypeOf db) u (itemTypeOf db b)))
                   (pairPred u b) }) := by
      rw [hd1]
      show equip_item { db with user_items := l1 } u (some b) = _
      simp [equip_item, hb0b, hu, hppb, hfB, htpb, hTeq]
    rw [hd2]
    show equippedRow (setEquippedFirst true (setEquippedFirst false l1
        (typePred (itemTypeOf db) u (itemTypeOf db b))) (pairPred u b)) u a = false
      ∧ equippedRow (setEquippedFirst true (setEquippedFirst false l1
        (typePred (itemTypeOf db) u (itemTypeOf db b))) (pairPred u b)) u b = true
    constructor
    · have hcount1 : equippedCount (itemTypeOf db) l1 u (itemTypeOf db b) ≤ 1 :=
        hinv1 u (itemTypeOf db b)
      have hzero := count_setFalse_self_eq_zero (itemTypeOf db) l1 u (itemTypeOf db b) hcount1
      have hAfalse : equippedRow (setEquippedFirst false l1
          (typePred (itemTypeOf db) u (itemTypeOf db b))) u a = false :=
        equippedRow_false_of_count_zero (itemTypeOf db) _ u (itemTypeOf db b) a htype hzero
      have hmis : ∀ ui, pairPred u b ui = true → (ui.item_id == a) = false := by
        intro ui hui
        simp only [pairPred, Bool.and_eq_true, beq_iff_eq] at hui
        rw [hui.2]
        exact beq_eq_false_iff_ne.mpr (fun hx => hab hx.symm)
      rw [equippedRow_set_eq_of_item_ne true _ (pairPred u b) u a hmis]
      exact hAfalse
    · have hoB2 : ownsRow (setEquippedFirst false l1
          (typePred (itemTypeOf db) u (itemTypeOf db b))) u b = true := by
        rw [ownsRow_setEquippedFirst]
        exact hoB1
      exact equippedRow_setTrue_pair _ u b hoB2

/-- C6: the per-user at-most-one-equipped-item-per-type predicate is
preserved by every operation — a purchase grants its row unequipped, the
premium purchase never writes, `equip_item` unequips the previously equipped
same-type row before equipping its target, and `unequip_item` only clears a
flag; and equipping item a then item b of the same type (both owned, ids
nonzero, user present) leaves a unequipped and b equipped. -/
theorem c6_at_most_one_equipped_per_type :
    (∀ (db : DB) (uid : Int) (p : Option Int), AtMostOneEquippedPerType db →
        AtMostOneEquippedPerType (buy_general_item db uid p).2)
    ∧ (∀ (db : DB) (uid : Int) (p : Option Int) (now : Int), AtMostOneEquippedPerType db →
        AtMostOneEquippedPerType (buy_premium_item db uid p now).2)
    ∧ (∀ (db : DB) (uid : Int) (p : Option Int), AtMostOneEquippedPerType db →
        AtMostOneEquippedPerType (equip_item db uid p).2)
    ∧ (∀ (db : DB) (uid : Int) (p : Option Int), AtMostOneEquippedPerType db →
        AtMostOneEquippedPerType (unequip_item db uid p).2)
    ∧ (∀ (db : DB) (u a b : Int), a ≠ 0 → b ≠ 0 → a ≠ b →
        (db.users.find? (fun w => w.user_id == u)).isSome = true →
        ownsRow db.user_items u a = true → ownsRow db.user_items u b = true →
        itemTypeOf db a = itemTypeOf db b → AtMostOneEquippedPerType db →
        equippedRow (equip_item (equip_item db u (some a)).2 u (some b)).2.user_items u a
            = false
        ∧ equippedRow (equip_item (equip_item db u (some a)).2 u (some b)).2.user_items u b
            = true) :=
  ⟨buy_general_preserves_atMostOne,
   fun db uid p now hinv => by rw [buy_premium_state_eq]; exact hinv,
   equip_preserves_atMostOne,
   unequip_preserves_atMostOne,
   fun db u a b ha0 hb0 hab husome hoa hob htype hinv =>
     equip_twice_same_type db u a b ha0 hb0 hab husome hoa hob htype hinv⟩

/-- C6 witness: in the concrete state where user 1 owns the same-type items
1 and 2, equipping item 1 and then item 2 leaves item 1 unequipped and item
2 equipped. -/
theorem c6_witness :
    equippedRow (equip_item (equip_item sampleEquipDB 1 (some 1)).2 1 (some 2)).2.user_items
        1 1 = false
    ∧ equippedRow (equip_item (equip_item sampleEquipDB 1 (some 1)).2 1 (some 2)).2.user_items
        1 2 = true :=
  c6_at_most_one_equipped_per_type.2.2.2.2 sampleEquipDB 1 1 2
    (by decide) (by decide) (by decide) (by decide) (by decide) (by decide) (by decide)
    (by
      intro u t
      have hz : equippedCount (itemTypeOf sampleEquipDB) sampleEquipDB.user_items u t = 0 := by
        simp [equippedCount, sampleEquipDB, typePred]
      omega)

end RitualNight
